import Mathlib

/-!
Shallow embedding of the case-processing pipeline of the frontline support
repository (`agents_system.py`, `app.py`, `database_models.py`).

Modelling conventions:
* Python strings are Lean `String`; the Python substring test `w in s` is
  `pyIn`, and `str.lower()` is `lowerStr` (ASCII case folding, as the
  keyword tables are ASCII).
* `datetime.utcnow()` is a minute counter `Env.now_min`; `date.today()` is a
  day counter `Env.today`; `timedelta` offsets become minute offsets.
* SQLAlchemy rows are records, tables are lists in insertion order;
  `query(...).filter(...).first()` is `List.find?`, mutation of the object
  returned by `first()` is `updateFirst`, `session.add` appends.  Commits
  are modelled as immediate (each handler threads the database through).
* A raised Python exception is `Except.error` carrying the exception text;
  a handler is `DB -> AgentState -> DB x Except String AgentState` so that
  database writes made before a raise survive it, as they do in the source.
-/

namespace Frontline

/-- Does `w` occur as a contiguous run starting at some position of `s`? -/
def containsSeq (w : List Char) : List Char → Bool
  | [] => w.isEmpty
  | c :: rest => w.isPrefixOf (c :: rest) || containsSeq w rest

/-- Python membership test `w in s` on strings: substring containment. -/
def pyIn (w s : String) : Bool := containsSeq w.toList s.toList

/-- Python `str.lower()` (ASCII folding suffices for the keyword tables),
computed on the character list so that it evaluates by kernel reduction. -/
def lowerStr (s : String) : String := ⟨s.data.map Char.toLower⟩

/-- `UrgencyLevel` enum of `database_models.py`. -/
inductive UrgencyLevel where
  | low | medium | high | critical
deriving DecidableEq, Repr

/-- `UrgencyLevel(value)`: look the string up among the enum values. -/
def UrgencyLevel.ofString : String → Option UrgencyLevel
  | "low" => some .low
  | "medium" => some .medium
  | "high" => some .high
  | "critical" => some .critical
  | _ => none

/-- `CaseStatus` enum of `database_models.py`. -/
inductive CaseStatus where
  | submitted | triaged | assigned | scheduled | in_progress | completed | cancelled
deriving DecidableEq, Repr

/-- The `.value` string of a `CaseStatus` member. -/
def CaseStatus.value : CaseStatus → String
  | .submitted => "submitted"
  | .triaged => "triaged"
  | .assigned => "assigned"
  | .scheduled => "scheduled"
  | .in_progress => "in_progress"
  | .completed => "completed"
  | .cancelled => "cancelled"

/-- `ServiceType` enum of `database_models.py`. -/
inductive ServiceType where
  | medical | emergency | social | administrative
deriving DecidableEq, Repr

/-- `ServiceType(value)`: look the string up among the enum values. -/
def ServiceType.ofString : String → Option ServiceType
  | "medical" => some .medical
  | "emergency" => some .emergency
  | "social" => some .social
  | "administrative" => some .administrative
  | _ => none

/-- `citizens` row (the columns the pipeline reads). -/
structure Citizen where
  id : Nat
  name : String
  email : String
  phone : String
  address : String
deriving DecidableEq, Repr

/-- `services` row (the columns the pipeline reads). -/
structure Service where
  id : Nat
  name : String
  type : ServiceType
  department : String
  location : String
  contact_info : String
  is_emergency : Bool
deriving DecidableEq, Repr

/-- `cases` row (the columns the pipeline reads or writes). -/
structure Case where
  id : Nat
  citizen_id : Nat
  title : String
  description : String
  urgency : UrgencyLevel
  status : CaseStatus
  assigned_service_id : Option Nat
  triage_notes : String
  estimated_duration : Option Nat
deriving DecidableEq, Repr

/-- `appointments` row. -/
structure Appointment where
  case_id : Nat
  service_id : Nat
  scheduled_time : Nat
  duration_minutes : Nat
  confirmation_sent : Bool
  notes : String
deriving DecidableEq, Repr

/-- `case_updates` row. -/
structure CaseUpdate where
  case_id : Nat
  message : String
  update_type : String
  agent_type : String
deriving DecidableEq, Repr

/-- `system_metrics` row (`service_id` is a nullable column; `date` has
`server_default now`, modelled as the day counter at insertion). -/
structure SystemMetrics where
  service_id : Option Nat
  date : Nat
  demand_count : Nat
deriving DecidableEq, Repr

/-- The relational store the session reads and writes. -/
structure DB where
  citizens : List Citizen
  services : List Service
  cases : List Case
  appointments : List Appointment
  case_updates : List CaseUpdate
  metrics : List SystemMetrics
deriving DecidableEq, Repr

/-- Ambient clock: `utcnow()` in minutes and `utcnow().date()` in days. -/
structure Env where
  now_min : Nat
  today : Nat
deriving DecidableEq, Repr

/-- Replace the first element satisfying `p` (the object handed back by
`query(...).first()` is mutated in place in the source). -/
def updateFirst (p : α → Bool) (f : α → α) : List α → List α
  | [] => []
  | x :: xs => if p x then f x :: xs else x :: updateFirst p f xs

/-- `query(Case).filter(Case.id == cid).first()`. -/
def DB.findCase (db : DB) (cid : Nat) : Option Case :=
  db.cases.find? (fun c => c.id == cid)

/-- `query(Citizen).filter(Citizen.id == i).first()`. -/
def DB.findCitizen (db : DB) (i : Nat) : Option Citizen :=
  db.citizens.find? (fun c => c.id == i)

/-- Mutate the case object returned by `first()`. -/
def DB.updateCase (db : DB) (cid : Nat) (f : Case → Case) : DB :=
  { db with cases := updateFirst (fun c => c.id == cid) f db.cases }

/-- `session.add(CaseUpdate(...))`. -/
def DB.addUpdate (db : DB) (u : CaseUpdate) : DB :=
  { db with case_updates := db.case_updates ++ [u] }

/-- `session.add(Appointment(...))`. -/
def DB.addAppointment (db : DB) (a : Appointment) : DB :=
  { db with appointments := db.appointments ++ [a] }

/-- The `triage` entry of `agent_outputs`. -/
structure TriageOut where
  urgency : String
  service_type : String
  estimated_duration : Nat
  notes : String
deriving DecidableEq, Repr

/-- The `guidance` entry of `agent_outputs`. -/
structure GuidanceOut where
  service_name : String
  service_location : String
  service_contact : String
  department : String
deriving DecidableEq, Repr

/-- `appointment_details` payload (also the `booking` output). -/
structure AppointmentDetails where
  service_name : String
  location : String
  scheduled_time : Nat
  duration : Nat
  contact : String
deriving DecidableEq, Repr

/-- The `followup` entry of `agent_outputs`. -/
structure FollowupOut where
  confirmation_message : String
  confirmation_sent : Bool
deriving DecidableEq, Repr

/-- The `equity` entry of `agent_outputs`. -/
structure EquityOut where
  metrics_updated : Bool
  timestamp : Nat
deriving DecidableEq, Repr

/-- `agent_outputs`: a dict with at most these five fixed keys. -/
structure AgentOutputs where
  triage : Option TriageOut
  guidance : Option GuidanceOut
  booking : Option AppointmentDetails
  followup : Option FollowupOut
  equity : Option EquityOut
deriving DecidableEq, Repr

/-- `citizen_data` snapshot captured by `process_case`. -/
structure CitizenData where
  name : String
  email : String
  phone : String
  address : String
deriving DecidableEq, Repr

/-- The `AgentState` TypedDict threaded through the LangGraph workflow. -/
structure AgentState where
  case_id : Nat
  citizen_data : CitizenData
  case_description : String
  urgency_level : String
  assigned_service_id : Option Nat
  appointment_details : Option AppointmentDetails
  messages : List String
  agent_outputs : AgentOutputs
  current_status : String
  error_message : Option String
  offline_mode : Bool
deriving DecidableEq, Repr

/-- `TriageAgent._determine_urgency`. -/
def determine_urgency (description : String) : String :=
  let dl := lowerStr description
  if ["emergency", "urgent", "critical", "severe", "life-threatening"].any
      (fun w => pyIn w dl) then "critical"
  else if ["pain", "injury", "bleeding", "fever"].any (fun w => pyIn w dl) then "high"
  else if ["appointment", "consultation", "check-up"].any (fun w => pyIn w dl) then "medium"
  else "low"

/-- `TriageAgent._determine_service_type`. -/
def determine_service_type (description : String) : String :=
  let dl := lowerStr description
  if ["medical", "doctor", "hospital", "health", "pain", "injury"].any
      (fun w => pyIn w dl) then "medical"
  else if ["emergency", "police", "fire", "ambulance"].any (fun w => pyIn w dl) then "emergency"
  else if ["social", "welfare", "benefits", "housing"].any (fun w => pyIn w dl) then "social"
  else "administrative"

/-- `TriageAgent._estimate_duration` (the description argument is unused in
the source as well). -/
def estimate_duration (description : String) (urgency : String) : Nat :=
  if urgency == "critical" then 60
  else if urgency == "high" then 45
  else if urgency == "medium" then 30
  else 15

/-- `TriageAgent.analyze_case`. -/
def analyze_case (db : DB) (st : AgentState) : DB × Except String AgentState :=
  match db.findCase st.case_id with
  | none => (db, .ok { st with error_message := some "Case not found" })
  | some _ =>
    let urgency := determine_urgency st.case_description
    let service_type := determine_service_type st.case_description
    let estimated_duration := estimate_duration st.case_description urgency
    match UrgencyLevel.ofString urgency with
    | none => (db, .error "ValueError: not a valid UrgencyLevel")
    | some u =>
      let notes := "Automated triage: " ++ urgency ++ " priority, " ++ service_type
        ++ " service needed"
      let db1 := db.updateCase st.case_id (fun c =>
        { c with urgency := u, status := .triaged, triage_notes := notes,
                 estimated_duration := some estimated_duration })
      let db2 := db1.addUpdate
        { case_id := st.case_id,
          message := "Case triaged as " ++ urgency ++ " priority requiring "
            ++ service_type ++ " service",
          update_type := "triage", agent_type := "triage" }
      let triOut : TriageOut :=
        { urgency := urgency, service_type := service_type,
          estimated_duration := estimated_duration, notes := notes }
      let msg := "Triage completed: " ++ urgency ++ " priority case requiring "
        ++ service_type ++ " service"
      (db2, .ok { st with
        urgency_level := urgency,
        current_status := "triaged",
        agent_outputs := { st.agent_outputs with triage := some triOut },
        messages := st.messages ++ [msg] })

/-- The service query of `GuidanceAgent.match_service`: filter by type, and
additionally by the emergency flag when urgency is critical or high. -/
def guidance_candidates (db : DB) (ty : ServiceType) (urgency : String) : List Service :=
  let q := db.services.filter (fun s => s.type == ty)
  if urgency == "critical" || urgency == "high" then q.filter (fun s => s.is_emergency)
  else q

/-- `GuidanceAgent.match_service`. -/
def match_service (db : DB) (st : AgentState) : DB × Except String AgentState :=
  let urgency := st.urgency_level
  match st.agent_outputs.triage with
  | none => (db, .error "KeyError: triage")
  | some tri =>
    match ServiceType.ofString tri.service_type with
    | none => (db, .error "ValueError: not a valid ServiceType")
    | some ty =>
      match guidance_candidates db ty urgency with
      | [] => (db, .ok { st with
          error_message := some ("No available services for " ++ tri.service_type) })
      | sel :: _ =>
        match db.findCase st.case_id with
        | none => (db, .error "AttributeError: NoneType has no attribute assigned_service_id")
        | some _ =>
          let db1 := db.updateCase st.case_id (fun c =>
            { c with assigned_service_id := some sel.id, status := .assigned })
          let db2 := db1.addUpdate
            { case_id := st.case_id,
              message := "Case assigned to " ++ sel.name ++ " at " ++ sel.location,
              update_type := "assignment", agent_type := "guidance" }
          let guideOut : GuidanceOut :=
            { service_name := sel.name, service_location := sel.location,
              service_contact := sel.contact_info, department := sel.department }
          let msg := "Case assigned to " ++ sel.name ++ " in " ++ sel.department
          (db2, .ok { st with
            assigned_service_id := some sel.id,
            current_status := "assigned",
            agent_outputs := { st.agent_outputs with guidance := some guideOut },
            messages := st.messages ++ [msg] })

/-- `BookingAgent._find_next_slot` (minute offsets for +1h, +4h, +1d, +3d). -/
def find_next_slot (now : Nat) (urgency : String) : Nat :=
  if urgency == "critical" then now + 60
  else if urgency == "high" then now + 240
  else if urgency == "medium" then now + 1440
  else now + 4320

/-- `BookingAgent.book_appointment`.  `query(Service).filter(Service.id ==
None).first()` matches no row, so an unset `assigned_service_id` takes the
same path as a vanished service. -/
def book_appointment (env : Env) (db : DB) (st : AgentState) :
    DB × Except String AgentState :=
  match st.agent_outputs.triage with
  | none => (db, .error "KeyError: triage")
  | some tri =>
    let lookup : Option Service := match st.assigned_service_id with
      | none => none
      | some sid => db.services.find? (fun s => s.id == sid)
    match lookup with
    | none => (db, .ok { st with error_message := some "Service not found" })
    | some service =>
      let scheduled_time := find_next_slot env.now_min st.urgency_level
      let db1 := db.addAppointment
        { case_id := st.case_id, service_id := service.id,
          scheduled_time := scheduled_time,
          duration_minutes := tri.estimated_duration,
          confirmation_sent := false,
          notes := "Auto-booked " ++ st.urgency_level ++ " priority appointment" }
      match db1.findCase st.case_id with
      | none => (db1, .error "AttributeError: NoneType has no attribute status")
      | some _ =>
        let db2 := db1.updateCase st.case_id (fun c => { c with status := .scheduled })
        let db3 := db2.addUpdate
          { case_id := st.case_id,
            message := "Appointment scheduled for " ++ toString scheduled_time
              ++ " at " ++ service.name,
            update_type := "booking", agent_type := "booking" }
        let details : AppointmentDetails :=
          { service_name := service.name, location := service.location,
            scheduled_time := scheduled_time, duration := tri.estimated_duration,
            contact := service.contact_info }
        let msg := "Appointment booked for " ++ toString scheduled_time
        (db3, .ok { st with
          appointment_details := some details,
          current_status := "scheduled",
          agent_outputs := { st.agent_outputs with booking := some details },
          messages := st.messages ++ [msg] })

/-- `FollowUpAgent._generate_confirmation_message` (template text condensed;
it reads exactly the fields the source template reads). -/
def generate_confirmation_message (ap : AppointmentDetails) (cz : CitizenData) : String :=
  "Hello " ++ cz.name ++ ", your appointment has been successfully booked: "
    ++ toString ap.scheduled_time ++ " at " ++ ap.service_name ++ " - "
    ++ ap.location ++ ", " ++ toString ap.duration ++ " minutes, contact "
    ++ ap.contact

/-- `FollowUpAgent.send_confirmation`.  With `appointment_details` unset the
template subscripts `None` and raises before any write. -/
def send_confirmation (db : DB) (st : AgentState) : DB × Except String AgentState :=
  match st.appointment_details with
  | none => (db, .error "TypeError: NoneType object is not subscriptable")
  | some ap =>
    let msg := generate_confirmation_message ap st.citizen_data
    let confirmed :=
      updateFirst (fun a => a.case_id == st.case_id)
        (fun a => { a with confirmation_sent := true }) db.appointments
    let db1 : DB := match db.appointments.find? (fun a => a.case_id == st.case_id) with
      | some _ => { db with appointments := confirmed }
      | none => db
    let db2 := db1.addUpdate
      { case_id := st.case_id, message := "Confirmation sent to citizen",
        update_type := "confirmation", agent_type := "follow_up" }
    let fuOut : FollowupOut := { confirmation_message := msg, confirmation_sent := true }
    (db2, .ok { st with
      agent_outputs := { st.agent_outputs with followup := some fuOut },
      messages := st.messages ++ ["Confirmation message sent to citizen"] })

/-- The row predicate of the metrics query in
`EquityOversightAgent.track_metrics`: same service and `date >= today`. -/
def metricMatches (sid : Nat) (today : Nat) (m : SystemMetrics) : Bool :=
  m.service_id == some sid && decide (today ≤ m.date)

/-- `EquityOversightAgent.track_metrics`.  Note the Python truthiness test
`if service_id:` which is false both for `None` and for `0`. -/
def track_metrics (env : Env) (db : DB) (st : AgentState) :
    DB × Except String AgentState :=
  let db1 : DB := match st.assigned_service_id with
    | none => db
    | some sid =>
      if sid == 0 then db
      else
        let fresh : SystemMetrics :=
          { service_id := some sid, date := env.today, demand_count := 1 }
        let bumped :=
          updateFirst (metricMatches sid env.today)
            (fun m => { m with demand_count := m.demand_count + 1 }) db.metrics
        match db.metrics.find? (metricMatches sid env.today) with
        | none => { db with metrics := db.metrics ++ [fresh] }
        | some _ => { db with metrics := bumped }
  let eqOut : EquityOut := { metrics_updated := true, timestamp := env.now_min }
  (db1, .ok { st with
    agent_outputs := { st.agent_outputs with equity := some eqOut } })

/-- Dispatch a LangGraph node name to its handler
(`FrontlineAgentSystem._create_workflow` node table). -/
def runStage (env : Env) (name : String) (db : DB) (st : AgentState) :
    DB × Except String AgentState :=
  if name == "triage" then analyze_case db st
  else if name == "guidance" then match_service db st
  else if name == "booking" then book_appointment env db st
  else if name == "followup" then send_confirmation db st
  else if name == "equity" then track_metrics env db st
  else (db, .ok st)

/-- The edge list of `_create_workflow`: every edge is unconditional. -/
def workflowOrder : List String := ["triage", "guidance", "booking", "followup", "equity"]

/-- Run the listed nodes in order; an exception inside a node propagates and
ends the run.  The first component records which nodes began executing. -/
def runStages (env : Env) : List String → DB → AgentState →
    List String × DB × Except String AgentState
  | [], db, st => ([], db, .ok st)
  | n :: rest, db, st =>
    match runStage env n db st with
    | (db1, .error e) => ([n], db1, .error e)
    | (db1, .ok st1) =>
      match runStages env rest db1 st1 with
      | (tr, db2, r) => (n :: tr, db2, r)

/-- `self.workflow.ainvoke(initial_state)`: the compiled linear graph. -/
def workflow_ainvoke (env : Env) (db : DB) (st : AgentState) :
    List String × DB × Except String AgentState :=
  runStages env workflowOrder db st

/-- The dictionary `process_case` returns, as optional keyed fields: a key
absent from the Python dict is `none` here. -/
structure ProcessOutcome where
  success : Option Bool
  error : Option String
  case_id : Option Nat
  final_status : Option String
  agent_outputs : Option AgentOutputs
  appointment_details : Option (Option AppointmentDetails)
  messages : Option (List String)
deriving DecidableEq, Repr

/-- The early-return dict `{"error": "Case not found"}`. -/
def caseNotFoundDict : ProcessOutcome :=
  { success := none, error := some "Case not found", case_id := none,
    final_status := none, agent_outputs := none, appointment_details := none,
    messages := none }

/-- The dict built from the final state on a run that did not raise. -/
def successDict (cid : Nat) (st : AgentState) : ProcessOutcome :=
  { success := some true, error := none, case_id := some cid,
    final_status := some st.current_status,
    agent_outputs := some st.agent_outputs,
    appointment_details := some st.appointment_details,
    messages := some st.messages }

/-- The dict built in the `except` branch of `process_case`. -/
def failureDict (e : String) (cid : Nat) : ProcessOutcome :=
  { success := some false, error := some e, case_id := some cid,
    final_status := none, agent_outputs := none, appointment_details := none,
    messages := none }

/-- The `initial_state` dict of `process_case`. -/
def initialState (cid : Nat) (cz : Citizen) (c : Case) (offline : Bool) : AgentState :=
  { case_id := cid,
    citizen_data := { name := cz.name, email := cz.email, phone := cz.phone,
                      address := cz.address },
    case_description := c.description,
    urgency_level := "",
    assigned_service_id := none,
    appointment_details := none,
    messages := [c.description],
    agent_outputs := { triage := none, guidance := none, booking := none,
                       followup := none, equity := none },
    current_status := c.status.value,
    error_message := none,
    offline_mode := offline }

/-- `FrontlineAgentSystem.process_case`.  The outer `Except` is an exception
escaping `process_case` itself (only possible before the try block, e.g. a
missing citizen row); the workflow runs inside the try block, so its
exceptions are turned into the failure dict. -/
def process_case (env : Env) (db : DB) (case_id : Nat) (offline_mode : Bool) :
    List String × DB × Except String ProcessOutcome :=
  match db.findCase case_id with
  | none => ([], db, .ok caseNotFoundDict)
  | some c =>
    match db.findCitizen c.citizen_id with
    | none => ([], db, .error "AttributeError: NoneType has no attribute name")
    | some cz =>
      match workflow_ainvoke env db (initialState case_id cz c offline_mode) with
      | (tr, db1, .ok finalState) => (tr, db1, .ok (successDict case_id finalState))
      | (tr, db1, .error e) => (tr, db1, .ok (failureDict e case_id))

/-!
The WebSocket `ConnectionManager` of `app.py`.  Connections are identifiers;
whether `connection.send_text(...)` succeeds for a given connection is an
environment parameter `sendOk`.  `send_case_update` iterates the subscriber
list of the case; on a send failure the `except` branch first evaluates
`self.disconnect(connection)` (a plain synchronous call that mutates
`active_connections`) and then awaits its `None` result, which raises a
`TypeError` that ends the loop.
-/

/-- `ConnectionManager` state. -/
structure ConnMgr where
  active_connections : List Nat
  case_subscribers : List (Nat × List Nat)
deriving DecidableEq, Repr

/-- The subscriber list registered for a case id, if any. -/
def subsFor (m : ConnMgr) (cid : Nat) : Option (List Nat) :=
  (m.case_subscribers.find? (fun p => p.1 == cid)).map Prod.snd

/-- `ConnectionManager.disconnect`: remove from `active_connections` only. -/
def disconnect (m : ConnMgr) (ws : Nat) : ConnMgr :=
  if ws ∈ m.active_connections then
    { m with active_connections := m.active_connections.erase ws }
  else m

/-- The message `await None` raises inside the `except` branch. -/
def awaitNoneError : String := "TypeError: object NoneType cannot be used in await expression"

/-- The delivery loop of `send_case_update` over one subscriber list.
Returns the manager state, the connections the event reached, and the
exception that escaped the loop, if any. -/
def sendLoop (sendOk : Nat → Bool) (m : ConnMgr) :
    List Nat → ConnMgr × List Nat × Option String
  | [] => (m, [], none)
  | c :: rest =>
    if sendOk c then
      match sendLoop sendOk m rest with
      | (m1, delivered, exc) => (m1, c :: delivered, exc)
    else
      (disconnect m c, [], some awaitNoneError)

/-- `ConnectionManager.send_case_update`. -/
def send_case_update (sendOk : Nat → Bool) (m : ConnMgr) (cid : Nat) :
    ConnMgr × List Nat × Option String :=
  match subsFor m cid with
  | some conns => sendLoop sendOk m conns
  | none => (m, [], none)

/-!
Concrete fixtures used by witnesses and counterexamples.
-/

/-- A fixed clock: minute 1000 of day 20. -/
def envX : Env := { now_min := 1000, today := 20 }

/-- A citizen row. -/
def cz1 : Citizen :=
  { id := 1, name := "John Doe", email := "john@example.com", phone := "555-1001",
    address := "123 Main St" }

/-- A submitted case whose description matches no triage keyword. -/
def caseA : Case :=
  { id := 1, citizen_id := 1, title := "help", description := "hello there",
    urgency := .medium, status := .submitted, assigned_service_id := none,
    triage_notes := "", estimated_duration := none }

/-- Database with `caseA` and an empty service catalog. -/
def dbA : DB :=
  { citizens := [cz1], services := [], cases := [caseA], appointments := [],
    case_updates := [], metrics := [] }

/-- An administrative service. -/
def svcAdmin : Service :=
  { id := 1, name := "City Administration", type := .administrative,
    department := "Administrative Services", location := "654 City Hall",
    contact_info := "555-0126", is_emergency := false }

/-- Database where the full pipeline can succeed for `caseA`. -/
def dbB : DB :=
  { citizens := [cz1], services := [svcAdmin], cases := [caseA], appointments := [],
    case_updates := [], metrics := [] }

/-- A case whose description triages as critical / emergency. -/
def caseE : Case :=
  { id := 1, citizen_id := 1, title := "e", description := "emergency!",
    urgency := .medium, status := .submitted, assigned_service_id := none,
    triage_notes := "", estimated_duration := none }

/-- An emergency-type service that is not flagged `is_emergency`. -/
def svcNoFlag : Service :=
  { id := 1, name := "Emergency Desk", type := .emergency,
    department := "Emergency Services", location := "789 Safety Blvd",
    contact_info := "911", is_emergency := false }

/-- Catalog with zero emergency-flagged services of the needed type. -/
def dbC : DB :=
  { citizens := [cz1], services := [svcNoFlag], cases := [caseE], appointments := [],
    case_updates := [], metrics := [] }

/-- An emergency-flagged emergency service, listed after the unflagged one. -/
def svcFlag : Service :=
  { id := 3, name := "Emergency Response Unit", type := .emergency,
    department := "Emergency Services", location := "1 Rescue Way",
    contact_info := "911", is_emergency := true }

/-- Catalog holding an unflagged and a flagged emergency service. -/
def dbD : DB :=
  { citizens := [cz1], services := [svcNoFlag, svcFlag], cases := [caseE],
    appointments := [], case_updates := [], metrics := [] }

/-- An empty database. -/
def dbEmpty : DB :=
  { citizens := [], services := [], cases := [], appointments := [],
    case_updates := [], metrics := [] }

/-- Total extractor for the success payload of a handler result. -/
def exceptOk (d : AgentState) : Except String AgentState → AgentState
  | .ok s => s
  | .error _ => d

/-- The initial state of the `caseA` pipeline run. -/
def st0A : AgentState := initialState 1 cz1 caseA false

/-- Database and state after the triage stage of the `dbA` run. -/
def dbAT : DB := (analyze_case dbA st0A).1

/-- State after the triage stage of the `dbA` run. -/
def stAT : AgentState := exceptOk st0A (analyze_case dbA st0A).2

/-- Final state of the successful `dbB` run. -/
def stBF : AgentState := exceptOk st0A (workflow_ainvoke envX dbB st0A).2.2

/-- Initial state of the `caseE` run. -/
def st0E : AgentState := initialState 1 cz1 caseE false

/-- State after the triage stage of the `dbD` run. -/
def stDT : AgentState := exceptOk st0E (analyze_case dbD st0E).2

/-- The triage output the `caseE` description produces. -/
def triE : TriageOut :=
  { urgency := "critical", service_type := "emergency", estimated_duration := 60,
    notes := "Automated triage: critical priority, emergency service needed" }

/-- A mid-pipeline state template for stage-level fixtures. -/
def stBase : AgentState :=
  { case_id := 1,
    citizen_data := { name := "John Doe", email := "john@example.com",
                      phone := "555-1001", address := "123 Main St" },
    case_description := "hello there", urgency_level := "low",
    assigned_service_id := none, appointment_details := none, messages := [],
    agent_outputs := { triage := none, guidance := none, booking := none,
                       followup := none, equity := none },
    current_status := "triaged", error_message := none, offline_mode := false }

/-- State with service 7 assigned, for the equity-tracking fixtures. -/
def stW : AgentState := { stBase with assigned_service_id := some 7 }

/-- State with service 0 assigned, for the equity truthiness fixture. -/
def stZ : AgentState := { stBase with assigned_service_id := some 0 }

/-- Metrics table holding a (service 7, day 20) row with demand 3. -/
def dbW : DB :=
  { dbEmpty with metrics := [{ service_id := some 7, date := 20, demand_count := 3 }] }

/-- Metrics table holding a (service 0, day 20) row with demand 3. -/
def dbZ : DB :=
  { dbEmpty with metrics := [{ service_id := some 0, date := 20, demand_count := 3 }] }

/-- The demand counter the metrics query reads for a service and day: the
total count over the rows `date >= today` selects. -/
def demandFor (db : DB) (sid : Nat) (today : Nat) : Nat :=
  ((db.metrics.filter (metricMatches sid today)).map SystemMetrics.demand_count).sum

/-- Send outcome fixture: delivery to connection 10 fails, others succeed. -/
def sendOk6 : Nat → Bool := fun c => c != 10

/-- Manager with two sinks subscribed to case 1. -/
def m6 : ConnMgr :=
  { active_connections := [10, 20], case_subscribers := [(1, [10, 20])] }

/-!
Helper lemmas about the workflow runner and the individual stage handlers.
-/

theorem runStage_triage (env : Env) (db : DB) (st : AgentState) :
    runStage env "triage" db st = analyze_case db st := rfl

theorem runStage_guidance (env : Env) (db : DB) (st : AgentState) :
    runStage env "guidance" db st = match_service db st := rfl

theorem runStage_booking (env : Env) (db : DB) (st : AgentState) :
    runStage env "booking" db st = book_appointment env db st := rfl

theorem runStage_followup (env : Env) (db : DB) (st : AgentState) :
    runStage env "followup" db st = send_confirmation db st := rfl

theorem runStage_equity (env : Env) (db : DB) (st : AgentState) :
    runStage env "equity" db st = track_metrics env db st := rfl

theorem runStages_cons_err {env : Env} {n : String} {rest : List String} {db : DB}
    {st : AgentState} {db1 : DB} {e : String}
    (h : runStage env n db st = (db1, .error e)) :
    runStages env (n :: rest) db st = ([n], db1, .error e) := by
  simp only [runStages, h]

theorem runStages_cons_ok {env : Env} {n : String} {rest : List String} {db : DB}
    {st : AgentState} {db1 : DB} {st1 : AgentState} {tr : List String} {db2 : DB}
    {r : Except String AgentState}
    (h1 : runStage env n db st = (db1, .ok st1))
    (h2 : runStages env rest db1 st1 = (tr, db2, r)) :
    runStages env (n :: rest) db st = (n :: tr, db2, r) := by
  simp only [runStages, h1, h2]

theorem urgency_parse (d : String) :
    ∃ u, UrgencyLevel.ofString (determine_urgency d) = some u := by
  simp only [determine_urgency]
  split
  · exact ⟨.critical, rfl⟩
  split
  · exact ⟨.high, rfl⟩
  split
  · exact ⟨.medium, rfl⟩
  · exact ⟨.low, rfl⟩

theorem analyze_case_found (db : DB) (st : AgentState) (c : Case)
    (hc : db.findCase st.case_id = some c) :
    ∃ db1 st1, analyze_case db st = (db1, .ok st1) ∧
      db1.services = db.services ∧
      db1.appointments = db.appointments ∧
      st1.case_id = st.case_id ∧
      st1.case_description = st.case_description ∧
      st1.urgency_level = determine_urgency st.case_description ∧
      st1.assigned_service_id = st.assigned_service_id ∧
      st1.appointment_details = st.appointment_details ∧
      st1.error_message = st.error_message ∧
      st1.current_status = "triaged" ∧
      st1.citizen_data = st.citizen_data ∧
      ∃ tri, st1.agent_outputs.triage = some tri ∧
        tri.service_type = determine_service_type st.case_description ∧
        tri.estimated_duration
          = estimate_duration st.case_description (determine_urgency st.case_description) := by
  obtain ⟨u, hu⟩ := urgency_parse st.case_description
  simp only [analyze_case, hc, hu]
  exact ⟨_, _, rfl, rfl, rfl, rfl, rfl, rfl, rfl, rfl, rfl, rfl, rfl,
    ⟨_, rfl, rfl, rfl⟩⟩

theorem match_service_bad_type (db : DB) (st : AgentState) (tri : TriageOut)
    (htri : st.agent_outputs.triage = some tri)
    (hty : ServiceType.ofString tri.service_type = none) :
    match_service db st = (db, .error "ValueError: not a valid ServiceType") := by
  simp only [match_service, htri, hty]

theorem match_service_no_candidates (db : DB) (st : AgentState) (tri : TriageOut)
    (ty : ServiceType)
    (htri : st.agent_outputs.triage = some tri)
    (hty : ServiceType.ofString tri.service_type = some ty)
    (hcand : guidance_candidates db ty st.urgency_level = []) :
    match_service db st = (db, .ok { st with
      error_message := some ("No available services for " ++ tri.service_type) }) := by
  simp only [match_service, htri, hty, hcand]

theorem book_no_service (env : Env) (db : DB) (st : AgentState) (tri : TriageOut)
    (htri : st.agent_outputs.triage = some tri)
    (hsid : st.assigned_service_id = none) :
    book_appointment env db st
      = (db, .ok { st with error_message := some "Service not found" }) := by
  simp only [book_appointment, htri, hsid]

theorem followup_none (db : DB) (st : AgentState)
    (h : st.appointment_details = none) :
    send_confirmation db st
      = (db, .error "TypeError: NoneType object is not subscriptable") := by
  simp only [send_confirmation, h]

theorem guidance_cand_flag (db : DB) (ty : ServiceType) (u : String) (sel : Service)
    (rest : List Service) (hu : u = "critical" ∨ u = "high")
    (h : guidance_candidates db ty u = sel :: rest) : sel.is_emergency = true := by
  have hcond : (u == "critical" || u == "high") = true := by
    rcases hu with h1 | h1 <;> simp [h1]
  simp only [guidance_candidates, hcond, if_true] at h
  have hmem : sel ∈ (db.services.filter (fun s => s.type == ty)).filter
      (fun s => s.is_emergency) := by
    rw [h]; exact List.mem_cons_self _ _
  exact (List.mem_filter.mp hmem).2

theorem guidance_candidates_services (db1 db2 : DB) (h : db1.services = db2.services)
    (ty : ServiceType) (u : String) :
    guidance_candidates db1 ty u = guidance_candidates db2 ty u := by
  simp only [guidance_candidates, h]

theorem book_ok_clean (env : Env) (db : DB) (st : AgentState) (db1 : DB)
    (st1 : AgentState)
    (h : book_appointment env db st = (db1, .ok st1))
    (he : st1.error_message = none) :
    st1.current_status = "scheduled" := by
  simp only [book_appointment] at h
  split at h
  · simp at h
  · split at h
    · simp at h
      obtain ⟨-, h2⟩ := h
      rw [← h2] at he
      simp at he
    · split at h
      · simp at h
      · simp at h
        obtain ⟨-, h2⟩ := h
        rw [← h2]

theorem followup_preserves (db : DB) (st : AgentState) (db1 : DB) (st1 : AgentState)
    (h : send_confirmation db st = (db1, .ok st1)) :
    st1.current_status = st.current_status ∧ st1.error_message = st.error_message := by
  simp only [send_confirmation] at h
  split at h
  · simp at h
  · simp at h
    obtain ⟨-, h2⟩ := h
    rw [← h2]
    exact ⟨rfl, rfl⟩

theorem track_preserves (env : Env) (db : DB) (st : AgentState) (db1 : DB)
    (st1 : AgentState)
    (h : track_metrics env db st = (db1, .ok st1)) :
    st1.current_status = st.current_status ∧ st1.error_message = st.error_message := by
  simp only [track_metrics] at h
  simp at h
  obtain ⟨-, h2⟩ := h
  rw [← h2]
  exact ⟨rfl, rfl⟩

theorem workflow_clean_status (env : Env) (db : DB) (st : AgentState)
    (tr : List String) (dbF : DB) (stF : AgentState)
    (h : workflow_ainvoke env db st = (tr, dbF, .ok stF))
    (he : stF.error_message = none) :
    stF.current_status = "scheduled" := by
  unfold workflow_ainvoke workflowOrder at h
  rcases hA : runStage env "triage" db st with ⟨dbA1, rA⟩
  cases rA with
  | error e => rw [runStages_cons_err hA] at h; simp at h
  | ok stA =>
  rcases hG : runStage env "guidance" dbA1 stA with ⟨dbG1, rG⟩
  cases rG with
  | error e => rw [runStages_cons_ok hA (runStages_cons_err hG)] at h; simp at h
  | ok stG =>
  rcases hB : runStage env "booking" dbG1 stG with ⟨dbB1, rB⟩
  cases rB with
  | error e =>
    rw [runStages_cons_ok hA (runStages_cons_ok hG (runStages_cons_err hB))] at h
    simp at h
  | ok stB =>
  rcases hF : runStage env "followup" dbB1 stB with ⟨dbF1, rF⟩
  cases rF with
  | error e =>
    rw [runStages_cons_ok hA (runStages_cons_ok hG (runStages_cons_ok hB
      (runStages_cons_err hF)))] at h
    simp at h
  | ok stFu =>
  rcases hE : runStage env "equity" dbF1 stFu with ⟨dbE1, rE⟩
  cases rE with
  | error e =>
    rw [runStages_cons_ok hA (runStages_cons_ok hG (runStages_cons_ok hB
      (runStages_cons_ok hF (runStages_cons_err hE))))] at h
    simp at h
  | ok stE =>
  rw [runStages_cons_ok hA (runStages_cons_ok hG (runStages_cons_ok hB
    (runStages_cons_ok hF (runStages_cons_ok hE rfl))))] at h
  injection h with h1 h23
  injection h23 with h2 h3
  injection h3 with hfin
  rw [← hfin] at he ⊢
  rw [runStage_booking] at hB
  rw [runStage_followup] at hF
  rw [runStage_equity] at hE
  obtain ⟨hE1, hE2⟩ := track_preserves env dbF1 stFu dbE1 stE hE
  obtain ⟨hF1, hF2⟩ := followup_preserves dbB1 stB dbF1 stFu hF
  have hBerr : stB.error_message = none := by
    rw [← hF2, ← hE2]; exact he
  have hBst : stB.current_status = "scheduled" :=
    book_ok_clean env dbG1 stG dbB1 stB hB hBerr
  rw [hE1, hF1, hBst]

/-!
Claim theorems.
-/

/-- C1 (amended).  Setting the error condition does not stop the engine: if
a stage handler returns normally with `error_message` set, the next stage in
the edge list still begins executing — the graph edges are unconditional, so
the run continues until some handler raises or the list ends. -/
theorem c1_theorem (env : Env) (n next : String) (rest : List String)
    (db : DB) (st : AgentState) (db1 : DB) (st1 : AgentState) (m : String)
    (h : runStage env n db st = (db1, .ok st1))
    (herr : st1.error_message = some m) :
    (runStages env (n :: next :: rest) db st).1.take 2 = [n, next] := by
  rcases h2 : runStage env next db1 st1 with ⟨db2, r2⟩
  cases r2 with
  | error e =>
    rw [runStages_cons_ok h (runStages_cons_err h2)]
    rfl
  | ok st2 =>
    rcases hR : runStages env rest db2 st2 with ⟨tr2, db3, r3⟩
    rw [runStages_cons_ok h (runStages_cons_ok h2 hR)]
    rfl

/-- C1 (counterexample).  In the `dbA` run the guidance handler sets the
error condition, yet the booking and followup stages still execute, the
case status stays `triaged` (never `failed`), and the terminal outcome is
the exception dict of the later followup crash — so the engine does not
stop immediately, does not set `failed`, and does run subsequent stages. -/
theorem c1_counterexample :
    (runStages envX ["triage", "guidance"] dbA st0A).2.2.map AgentState.error_message
      = .ok (some "No available services for administrative") ∧
    (process_case envX dbA 1 false).1 = ["triage", "guidance", "booking", "followup"] ∧
    ((process_case envX dbA 1 false).2.1.findCase 1).map Case.status = some .triaged ∧
    (process_case envX dbA 1 false).2.2
      = .ok (failureDict "TypeError: NoneType object is not subscriptable" 1) :=
  ⟨rfl, rfl, rfl, rfl⟩

/-- C1 (witness).  Concrete instantiation: after guidance returns with the
error condition set, booking still begins executing. -/
theorem c1_witness :
    (runStages envX ["guidance", "booking", "followup", "equity"] dbAT stAT).1.take 2
      = ["guidance", "booking"] :=
  c1_theorem envX "guidance" "booking" ["followup", "equity"] dbAT stAT
    (match_service dbAT stAT).1 (exceptOk stAT (match_service dbAT stAT).2)
    "No available services for administrative" rfl rfl

/-- C2 (amended).  A run in which every stage returns normally and no stage
sets the error condition reports `final_status = "scheduled"` — not
`"completed"`: no handler ever assigns the `completed` status. -/
theorem c2_theorem (env : Env) (db : DB) (cid : Nat) (c : Case) (cz : Citizen)
    (stF : AgentState)
    (hc : db.findCase cid = some c)
    (hz : db.findCitizen c.citizen_id = some cz)
    (hok : (workflow_ainvoke env db (initialState cid cz c false)).2.2 = .ok stF)
    (he : stF.error_message = none) :
    (process_case env db cid false).2.2 = .ok (successDict cid stF) ∧
    stF.current_status = "scheduled" := by
  rcases hW : workflow_ainvoke env db (initialState cid cz c false) with ⟨tr, db1, r⟩
  rw [hW] at hok
  simp only at hok
  subst hok
  refine ⟨?_, workflow_clean_status env db _ tr db1 stF hW he⟩
  simp only [process_case, hc, hz, hW]

/-- C2 (counterexample).  A fully successful run of the `dbB` fixture:
all five stages execute, the outcome has `success = true`, and the reported
final status is `"scheduled"`, not `"completed"`. -/
theorem c2_counterexample :
    (process_case envX dbB 1 false).1 = workflowOrder ∧
    (process_case envX dbB 1 false).2.2.map ProcessOutcome.success = .ok (some true) ∧
    (process_case envX dbB 1 false).2.2.map ProcessOutcome.final_status
      = .ok (some "scheduled") ∧
    (some "scheduled" : Option String) ≠ some "completed" :=
  ⟨rfl, rfl, rfl, by decide⟩

/-- C2 (witness).  The amended theorem applied to the successful `dbB` run. -/
theorem c2_witness :
    (process_case envX dbB 1 false).2.2 = .ok (successDict 1 stBF) ∧
    stBF.current_status = "scheduled" :=
  c2_theorem envX dbB 1 caseA cz1 stBF rfl rfl rfl rfl

/-- C3.  Triage urgency: any description containing one of the critical
keywords (case-insensitive substring over the lowercased text) is classified
`critical`, regardless of any other content — the critical rule is the first
branch of the first-match-wins chain. -/
theorem c3_theorem (d : String)
    (h : ∃ w ∈ ["emergency", "urgent", "critical", "severe", "life-threatening"],
      pyIn w (lowerStr d) = true) :
    determine_urgency d = "critical" := by
  have hc : (["emergency", "urgent", "critical", "severe", "life-threatening"].any
      (fun w => pyIn w (lowerStr d))) = true := by
    rw [List.any_eq_true]
    obtain ⟨w, hw, hp⟩ := h
    exact ⟨w, hw, hp⟩
  simp [determine_urgency, hc]

/-- C3 (witness).  A description containing both a critical keyword and a
medium keyword is still classified critical. -/
theorem c3_witness : determine_urgency "It is urgent, I also want a check-up"
    = "critical" :=
  c3_theorem _ ⟨"urgent", by decide, by decide⟩

/-- C4 (amended).  With urgency critical or high, the guidance stage sets
the no-service error condition exactly when the emergency-filtered candidate
list is empty (leaving the assignment and the database untouched), and when
the list is nonempty it assigns its first element, which necessarily carries
`is_emergency = true`.  The failure does not halt the pipeline (see the
counterexample): later stages still execute. -/
theorem c4_theorem (db : DB) (st : AgentState) (db1 : DB) (st1 : AgentState)
    (tri : TriageOut) (ty : ServiceType)
    (htri : st.agent_outputs.triage = some tri)
    (hty : ServiceType.ofString tri.service_type = some ty)
    (hurg : st.urgency_level = "critical" ∨ st.urgency_level = "high")
    (hok : match_service db st = (db1, .ok st1)) :
    (guidance_candidates db ty st.urgency_level = [] →
      st1.error_message = some ("No available services for " ++ tri.service_type) ∧
      st1.assigned_service_id = st.assigned_service_id ∧ db1 = db) ∧
    (∀ sel rest, guidance_candidates db ty st.urgency_level = sel :: rest →
      st1.assigned_service_id = some sel.id ∧ sel.is_emergency = true) := by
  constructor
  · intro hcand
    rw [match_service_no_candidates db st tri ty htri hty hcand] at hok
    injection hok with hdb hr
    injection hr with hst
    rw [← hst]
    exact ⟨rfl, rfl, hdb.symm⟩
  · intro sel rest hcand
    have hflag := guidance_cand_flag db ty st.urgency_level sel rest hurg hcand
    simp only [match_service, htri, hty, hcand] at hok
    split at hok
    · simp at hok
    · injection hok with hdb hr
      injection hr with hst
      rw [← hst]
      exact ⟨rfl, hflag⟩

/-- C4 (counterexample).  Scenario C fixture: urgency critical, service type
emergency, no emergency-flagged service.  Guidance does set the error
condition, but the pipeline is not halted: booking and followup still
execute, and the terminal outcome carries the followup TypeError rather
than the no-service message. -/
theorem c4_counterexample :
    (runStages envX ["triage", "guidance"] dbC st0E).2.2.map AgentState.error_message
      = .ok (some "No available services for emergency") ∧
    (process_case envX dbC 1 false).1 = ["triage", "guidance", "booking", "followup"] ∧
    (process_case envX dbC 1 false).2.2
      = .ok (failureDict "TypeError: NoneType object is not subscriptable" 1) :=
  ⟨rfl, rfl, rfl⟩

/-- C4 (witness).  With an unflagged and a flagged emergency service in the
catalog and urgency critical, guidance selects the flagged one. -/
theorem c4_witness :
    (exceptOk stDT (match_service dbD stDT).2).assigned_service_id = some svcFlag.id ∧
    svcFlag.is_emergency = true :=
  (c4_theorem dbD stDT (match_service dbD stDT).1
      (exceptOk stDT (match_service dbD stDT).2) triE .emergency rfl rfl
      (Or.inl rfl) rfl).2 svcFlag [] rfl

/-- C5.  If the guidance query of a run can return no candidate service,
the run creates no appointment row: the appointments table after
`process_case` equals the table before it. -/
theorem c5_theorem (env : Env) (db : DB) (cid : Nat) (c : Case) (cz : Citizen)
    (tr : List String) (db1 : DB) (res : Except String ProcessOutcome)
    (hc : db.findCase cid = some c)
    (hz : db.findCitizen c.citizen_id = some cz)
    (hfail : ∀ ty, ServiceType.ofString (determine_service_type c.description) = some ty →
      guidance_candidates db ty (determine_urgency c.description) = [])
    (hrun : process_case env db cid false = (tr, db1, res)) :
    db1.appointments = db.appointments := by
  have hc0 : db.findCase (initialState cid cz c false).case_id = some c := hc
  obtain ⟨dbT, stT, hA, hsvc, happ, hcid, hdesc, hurg, hassigned, hdetails,
    herr, hstatus, hczd, tri, htri, htyT, hdur⟩ :=
    analyze_case_found db (initialState cid cz c false) c hc0
  cases hty : ServiceType.ofString tri.service_type with
  | none =>
    have hG := match_service_bad_type dbT stT tri htri hty
    have hW : workflow_ainvoke env db (initialState cid cz c false)
        = (["triage", "guidance"], dbT, .error "ValueError: not a valid ServiceType") := by
      unfold workflow_ainvoke workflowOrder
      exact runStages_cons_ok ((runStage_triage env db _).trans hA)
        (runStages_cons_err ((runStage_guidance env dbT stT).trans hG))
    have hP : process_case env db cid false = (["triage", "guidance"], dbT,
        .ok (failureDict "ValueError: not a valid ServiceType" cid)) := by
      simp only [process_case, hc, hz, hW]
    rw [hP] at hrun
    injection hrun with h1 h23
    injection h23 with h2 h3
    rw [← h2]
    exact happ
  | some ty =>
    have hcand : guidance_candidates dbT ty stT.urgency_level = [] := by
      rw [guidance_candidates_services dbT db hsvc, hurg]
      exact hfail ty (htyT ▸ hty)
    have hG := match_service_no_candidates dbT stT tri ty htri hty hcand
    have hB := book_no_service env dbT
      { stT with error_message := some ("No available services for " ++ tri.service_type) }
      tri htri hassigned
    have hF := followup_none dbT
      { stT with error_message := some "Service not found" } hdetails
    have hW : workflow_ainvoke env db (initialState cid cz c false)
        = (["triage", "guidance", "booking", "followup"], dbT,
           .error "TypeError: NoneType object is not subscriptable") := by
      unfold workflow_ainvoke workflowOrder
      exact runStages_cons_ok ((runStage_triage env db _).trans hA)
        (runStages_cons_ok ((runStage_guidance env dbT stT).trans hG)
          (runStages_cons_ok ((runStage_booking env dbT _).trans hB)
            (runStages_cons_err ((runStage_followup env dbT _).trans hF))))
    have hP : process_case env db cid false
        = (["triage", "guidance", "booking", "followup"], dbT,
           .ok (failureDict "TypeError: NoneType object is not subscriptable" cid)) := by
      simp only [process_case, hc, hz, hW]
    rw [hP] at hrun
    injection hrun with h1 h23
    injection h23 with h2 h3
    rw [← h2]
    exact happ

/-- C5 (witness).  The `dbA` run (empty catalog, so guidance must fail)
leaves the appointments table unchanged. -/
theorem c5_witness :
    (process_case envX dbA 1 false).2.1.appointments = dbA.appointments :=
  c5_theorem envX dbA 1 caseA cz1 (process_case envX dbA 1 false).1
    (process_case envX dbA 1 false).2.1 (process_case envX dbA 1 false).2.2
    rfl rfl (fun ty _ => by cases ty <;> rfl) rfl

/-- The delivery loop ends at the first failing sink: every earlier sink
receives the event, the failing sink is removed from the active connections
only, and the `await None` TypeError escapes. -/
theorem sendLoop_fails (sendOk : Nat → Bool) (m : ConnMgr) (c : Nat) (post : List Nat)
    (hc : sendOk c = false) :
    ∀ pre, (∀ x ∈ pre, sendOk x = true) →
      sendLoop sendOk m (pre ++ c :: post) = (disconnect m c, pre, some awaitNoneError)
  | [], _ => by simp [sendLoop, hc]
  | a :: as, hpre => by
    have ha : sendOk a = true := hpre a (List.mem_cons_self a as)
    have ih := sendLoop_fails sendOk m c post hc as
      (fun x hx => hpre x (List.mem_cons_of_mem a hx))
    simp [List.cons_append, sendLoop, ha, ih]

/-- C6 (amended).  When delivery to one registered sink fails, the sinks
before it already received the event, the failing sink is removed from the
global active-connections list only — it stays in the per-case subscriber
registry — and the handler raises a TypeError (awaiting the `None` returned
by the synchronous `disconnect`), so the event reaches none of the sinks
after the failing one. -/
theorem c6_theorem (sendOk : Nat → Bool) (m : ConnMgr) (cid : Nat)
    (pre post : List Nat) (c : Nat)
    (hsubs : subsFor m cid = some (pre ++ c :: post))
    (hpre : ∀ x ∈ pre, sendOk x = true)
    (hc : sendOk c = false) :
    send_case_update sendOk m cid = (disconnect m c, pre, some awaitNoneError) ∧
    subsFor (disconnect m c) cid = subsFor m cid := by
  constructor
  · simp only [send_case_update, hsubs]
    exact sendLoop_fails sendOk m c post hc pre hpre
  · simp only [disconnect]
    split <;> rfl

/-- C6 (counterexample).  Two sinks are subscribed to case 1; delivery to
the first fails.  The second sink, although delivery to it would succeed,
receives nothing, the failing sink is still registered for the case, and
the TypeError escapes the publish call — contradicting removal from the
per-case registry and unaffected delivery to the remaining sinks. -/
theorem c6_counterexample :
    (send_case_update sendOk6 m6 1).2.1 = [] ∧
    sendOk6 20 = true ∧
    subsFor (send_case_update sendOk6 m6 1).1 1 = some [10, 20] ∧
    (send_case_update sendOk6 m6 1).2.2 = some awaitNoneError :=
  ⟨rfl, rfl, rfl, rfl⟩

/-- C6 (witness).  The amended theorem applied to the two-sink fixture. -/
theorem c6_witness :
    send_case_update sendOk6 m6 1 = (disconnect m6 10, [], some awaitNoneError) ∧
    subsFor (disconnect m6 10) 1 = subsFor m6 1 :=
  c6_theorem sendOk6 m6 1 [] [20] 10 rfl (by decide) rfl

/-- C7.  An exception raised inside any stage handler is caught at the
engine boundary: `process_case` still returns normally, with a generic
failure dict carrying `success = false`, the exception message, and the
case id. -/
theorem c7_theorem (env : Env) (db : DB) (cid : Nat) (c : Case) (cz : Citizen)
    (tr : List String) (db1 : DB) (e : String)
    (hc : db.findCase cid = some c)
    (hz : db.findCitizen c.citizen_id = some cz)
    (hrun : workflow_ainvoke env db (initialState cid cz c false) = (tr, db1, .error e)) :
    process_case env db cid false = (tr, db1, .ok (failureDict e cid)) ∧
    (failureDict e cid).success = some false ∧
    (failureDict e cid).error = some e ∧
    (failureDict e cid).case_id = some cid := by
  refine ⟨?_, rfl, rfl, rfl⟩
  simp only [process_case, hc, hz, hrun]

/-- C7 (witness).  The `dbA` run raises a TypeError inside the followup
stage; `process_case` still returns a failure dict. -/
theorem c7_witness :
    process_case envX dbA 1 false
      = ((workflow_ainvoke envX dbA st0A).1, (workflow_ainvoke envX dbA st0A).2.1,
         .ok (failureDict "TypeError: NoneType object is not subscriptable" 1)) :=
  (c7_theorem envX dbA 1 caseA cz1 (workflow_ainvoke envX dbA st0A).1
    (workflow_ainvoke envX dbA st0A).2.1
    "TypeError: NoneType object is not subscriptable" rfl rfl rfl).1

/-- Incrementing the first row the metrics query selects raises the total
selected demand count by exactly one. -/
theorem updateFirst_demand (sid today : Nat) (l : List SystemMetrics)
    (m0 : SystemMetrics)
    (h : l.find? (metricMatches sid today) = some m0) :
    (((updateFirst (metricMatches sid today)
          (fun m => { m with demand_count := m.demand_count + 1 }) l).filter
        (metricMatches sid today)).map SystemMetrics.demand_count).sum
      = ((l.filter (metricMatches sid today)).map SystemMetrics.demand_count).sum
        + 1 := by
  induction l with
  | nil => simp [List.find?] at h
  | cons x xs ih =>
    cases hx : metricMatches sid today x with
    | false =>
      rw [List.find?_cons, hx] at h
      simp only [updateFirst, hx, Bool.false_eq_true, if_false, List.filter_cons, ih h]
    | true =>
      have hfx : metricMatches sid today
          { x with demand_count := x.demand_count + 1 } = true := hx
      simp only [updateFirst, hx, if_true, List.filter_cons, hfx, List.map_cons,
        List.sum_cons]
      omega

/-- C8 (amended).  The equity stage always succeeds without touching the
error condition or the status; with no assigned service id it leaves the
whole database unchanged; with a nonzero assigned service id it raises the
demand count selected for (service, today) by exactly one, creating a
fresh row with count 1 when the query finds none.  (Id 0 falls under the
Python truthiness test `if service_id:` — see the counterexample.) -/
theorem c8_theorem (env : Env) (db : DB) (st : AgentState) :
    (∃ st1, (track_metrics env db st).2 = .ok st1 ∧
      st1.error_message = st.error_message ∧
      st1.current_status = st.current_status) ∧
    (st.assigned_service_id = none → (track_metrics env db st).1 = db) ∧
    (∀ sid, st.assigned_service_id = some sid → sid ≠ 0 →
      demandFor (track_metrics env db st).1 sid env.today
        = demandFor db sid env.today + 1 ∧
      (db.metrics.find? (metricMatches sid env.today) = none →
        (track_metrics env db st).1.metrics = db.metrics
          ++ [{ service_id := some sid, date := env.today, demand_count := 1 }])) := by
  refine ⟨⟨_, rfl, rfl, rfl⟩, ?_, ?_⟩
  · intro h
    simp only [track_metrics, h]
  · intro sid hsid hne
    have hz : (sid == 0) = false := by simpa using hne
    cases hfind : db.metrics.find? (metricMatches sid env.today) with
    | none =>
      constructor
      · simp only [track_metrics, hsid, hz, Bool.false_eq_true, if_false, hfind]
        simp [demandFor, List.filter_append, metricMatches]
      · intro _
        simp only [track_metrics, hsid, hz, Bool.false_eq_true, if_false, hfind]
    | some m0 =>
      constructor
      · simp only [track_metrics, hsid, hz, Bool.false_eq_true, if_false, hfind]
        simp only [demandFor]
        exact updateFirst_demand sid env.today db.metrics m0 hfind
      · intro hnone
        simp at hnone

/-- C8 (counterexample).  A state with service id 0 assigned: the stage
leaves the metrics — and the whole database — unchanged, so the demand
counter does not change by +1 even though a service id is assigned. -/
theorem c8_counterexample :
    stZ.assigned_service_id = some 0 ∧
    (track_metrics envX dbZ stZ).1 = dbZ ∧
    demandFor (track_metrics envX dbZ stZ).1 0 envX.today = 3 ∧
    demandFor dbZ 0 envX.today = 3 :=
  ⟨rfl, rfl, rfl, rfl⟩

/-- C8 (witness).  With service 7 assigned and an existing (7, day 20) row
of count 3, the stage raises the selected demand count from 3 to 4. -/
theorem c8_witness :
    demandFor (track_metrics envX dbW stW).1 7 envX.today
      = demandFor dbW 7 envX.today + 1 :=
  ((c8_theorem envX dbW stW).2.2 7 rfl (by decide)).1

/-- C9 (amended).  The scenario description contains `checkup` but not the
hyphenated rule-3 keyword `check-up`, and no other keyword fires, so plain
substring matching classifies it `low`, not `medium`. -/
theorem c9_theorem :
    determine_urgency "I need to schedule my annual health checkup" = "low" ∧
    pyIn "checkup" (lowerStr "I need to schedule my annual health checkup") = true ∧
    pyIn "check-up" (lowerStr "I need to schedule my annual health checkup") = false :=
  ⟨by decide, by decide, by decide⟩

/-- C9 (counterexample).  The claimed classification `medium` is false: the
code assigns `low` to the scenario description. -/
theorem c9_counterexample :
    determine_urgency "I need to schedule my annual health checkup" ≠ "medium" ∧
    determine_urgency "I need to schedule my annual health checkup" = "low" :=
  ⟨by decide, by decide⟩

/-- C10.  When the case id does not resolve, `process_case` returns exactly
the dict `{"error": "Case not found"}` — no success flag, case id, status,
outputs or messages key — runs no stage, and leaves the database
untouched. -/
theorem c10_theorem (env : Env) (db : DB) (cid : Nat) (offline : Bool)
    (h : db.findCase cid = none) :
    process_case env db cid offline = ([], db, .ok caseNotFoundDict) ∧
    caseNotFoundDict.error = some "Case not found" ∧
    caseNotFoundDict.success = none ∧
    caseNotFoundDict.case_id = none ∧
    caseNotFoundDict.final_status = none ∧
    caseNotFoundDict.agent_outputs = none ∧
    caseNotFoundDict.messages = none := by
  refine ⟨?_, rfl, rfl, rfl, rfl, rfl, rfl⟩
  simp only [process_case, h]

/-- C10 (witness).  On the empty database every case id misses. -/
theorem c10_witness :
    process_case envX dbEmpty 5 false = ([], dbEmpty, .ok caseNotFoundDict) :=
  (c10_theorem envX dbEmpty 5 false rfl).1

end Frontline
